import Mathlib

/-!
Verification of the screenshot-beautifier "virtual canvas" pipeline.

The development shallowly embeds, over exact rational arithmetic `ℚ`
(standing for JavaScript doubles), the geometry-carrying functions of the
repository:

  * the settings record and the two static catalogs
    (`aspectRatioOptions`, `backgroundPresets`) from `useScreenshot.ts`;
  * the model builder `createCanvasModel`;
  * the layout projector `computeCanvasStyles` (its numeric outputs);
  * the export layout of `renderToCanvas` (the numbers it feeds to the
    drawing calls) and its background noise loop;
  * `calculateConstrainedSize` from `Canvas.tsx`;
  * `getAspectRatioDimensions` and the export dimension computation of
    `exportImage`;
  * the `updateSettings` state transition of the hook.

Division on `ℚ` is total with `x / 0 = 0`; at the single spot where the
source can divide by zero (the `availableWidth / availableHeight` ratio
when padding and inset consume the whole canvas) the resulting branch
value coincides with what the JavaScript `NaN` comparison path produces
(both give scale `0`), as noted inline.
-/

namespace Screenshoot

/-- `ScreenshotSettings` from `types` as used by `useScreenshot.ts`. -/
structure ScreenshotSettings where
  padding : ℚ
  inset : ℚ
  insetColor : String
  borderRadius : ℚ
  shadow : ℚ
  backgroundPreset : ℤ
  aspectRatio : String
deriving DecidableEq, Repr

/-- `AspectRatioOption` entries of the static catalog. -/
structure AspectRatioOption where
  label : String
  value : String
  width : ℚ
  height : ℚ
deriving DecidableEq, Repr

/-- `BackgroundPreset` entries of the static catalog. -/
structure BackgroundPreset where
  id : ℤ
  name : String
  className : String
deriving DecidableEq, Repr

/-- The `aspectRatioOptions` catalog from `useScreenshot.ts`. -/
def aspectRatioOptions : List AspectRatioOption :=
  [ { label := "4:3", value := "4:3", width := 4, height := 3 },
    { label := "3:2", value := "3:2", width := 3, height := 2 },
    { label := "16:9", value := "16:9", width := 16, height := 9 },
    { label := "1:1", value := "1:1", width := 1, height := 1 },
    { label := "9:16", value := "9:16", width := 9, height := 16 },
    { label := "4:5", value := "4:5", width := 4, height := 5 },
    { label := "1.91:1", value := "1.91:1", width := 1.91, height := 1 },
    { label := "YouTube Thumbnail", value := "youtube-thumbnail", width := 1280, height := 720 },
    { label := "Instagram Story", value := "instagram-story", width := 1080, height := 1920 },
    { label := "Instagram Square", value := "instagram-square", width := 1080, height := 1080 },
    { label := "Instagram Portrait", value := "instagram-portrait", width := 1080, height := 1350 },
    { label := "Instagram Landscape", value := "instagram-landscape", width := 1080, height := 566 },
    { label := "Twitter Post", value := "twitter-post", width := 1600, height := 900 },
    { label := "YouTube Community", value := "youtube-community", width := 1080, height := 1080 } ]

/-- The `backgroundPresets` catalog from `useScreenshot.ts`. -/
def backgroundPresets : List BackgroundPreset :=
  [ { id := 1, name := "Blue Gradient", className := "bg-gradient-to-br from-blue-500 to-purple-600" },
    { id := 2, name := "Green Gradient", className := "bg-gradient-to-br from-green-400 to-blue-500" },
    { id := 3, name := "Orange Gradient", className := "bg-gradient-to-br from-orange-400 to-pink-500" } ]

/-- `defaultSettings` from `useScreenshot.ts`. -/
def defaultSettings : ScreenshotSettings :=
  { padding := 40, inset := 0, insetColor := "#FFFFFF", borderRadius := 8,
    shadow := 15, backgroundPreset := 1, aspectRatio := "16:9" }

/-! ## The virtual canvas model (`types` / `createCanvasModel`) -/

/-- A width/height pair (used for natural image sizes, containers, targets). -/
structure Size where
  width : ℚ
  height : ℚ
deriving DecidableEq, Repr

/-- The drop-shadow effect stored on the model's image. -/
structure ShadowEffect where
  offsetX : ℚ
  offsetY : ℚ
  blur : ℚ
  color : String
deriving DecidableEq, Repr

/-- The inset border effect stored on the model's image. -/
structure InsetEffect where
  size : ℚ
  color : String
deriving DecidableEq, Repr

/-- The effects record of the model's image. -/
structure ImageEffects where
  shadow : ShadowEffect
  borderRadius : ℚ
  inset : InsetEffect
deriving DecidableEq, Repr

/-- The image part of the virtual canvas model. -/
structure CanvasImage where
  naturalWidth : ℚ
  naturalHeight : ℚ
  position : ℚ × ℚ
  scale : ℚ
  effects : ImageEffects
deriving DecidableEq, Repr

/-- Background effects of the model (`noise` opacity). -/
structure BackgroundEffects where
  noise : ℚ
deriving DecidableEq, Repr

/-- The background part of the virtual canvas model. -/
structure CanvasBackground where
  kind : String
  value : String
  className : String
  effects : BackgroundEffects
deriving DecidableEq, Repr

/-- The content part of the virtual canvas model. -/
structure CanvasContent where
  padding : ℚ
  image : Option CanvasImage
deriving DecidableEq, Repr

/-- `VirtualCanvas` from `types`: the normalized, resolution-independent model. -/
structure VirtualCanvas where
  aspectRatio : String
  aspectRatioValue : Size
  background : CanvasBackground
  content : CanvasContent
deriving DecidableEq, Repr

/-- `createCanvasModel` from the virtual-canvas module: builds the normalized
model from settings, catalogs, optional image natural dimensions and the
container size.  Follows the source line by line; `aspectOption?.width || 16`
is embedded as the zero-test fallback (`0` is the only falsy rational). -/
def createCanvasModel (settings : ScreenshotSettings)
    (presets : List BackgroundPreset)
    (imageDimensions : Option Size)
    (options : List AspectRatioOption)
    (containerSize : Size) : VirtualCanvas :=
  let aspectOption := options.find? (fun opt => opt.value == settings.aspectRatio)
  let aspectRatioValue : Size :=
    { width := match aspectOption with
        | some o => if o.width = 0 then 16 else o.width
        | none => 16
      height := match aspectOption with
        | some o => if o.height = 0 then 9 else o.height
        | none => 9 }
  let aspectRatio := aspectRatioValue.width / aspectRatioValue.height
  let backgroundPreset := presets.find? (fun p => p.id == settings.backgroundPreset)
  let normalizedPadding := min (settings.padding / 100) 0.4
  let normalizedInset := min (settings.inset / 100) 0.2
  let normalizedBorderRadius := settings.borderRadius / 100
  let normalizedShadow := settings.shadow / 100
  let baseImage : Option CanvasImage := imageDimensions.map (fun d =>
    { naturalWidth := d.width
      naturalHeight := d.height
      position := (0.5, 0.5)
      scale := 1
      effects :=
        { shadow :=
            { offsetX := normalizedShadow * 0.5
              offsetY := normalizedShadow * 1.5
              blur := normalizedShadow * 2.5
              color := "rgba(0,0,0,0.35)" }
          borderRadius := normalizedBorderRadius
          inset := { size := normalizedInset, color := settings.insetColor } } })
  let image : Option CanvasImage :=
    match imageDimensions, baseImage with
    | some dims, some img =>
      if containerSize.width > 0 ∧ containerSize.height > 0 then
        let availableWidth := 1 - normalizedPadding * 2 - img.effects.inset.size * 2
        let availableHeight := 1 - normalizedPadding * 2 - img.effects.inset.size * 2
        -- In the source this is `availableWidth / availableHeight * aspectRatio`;
        -- when both are 0 JavaScript yields NaN and takes the other branch, but
        -- both branches evaluate to scale 0 there, so the ℚ convention 0/0 = 0
        -- produces the same model.
        let availableSpaceRatio := availableWidth / availableHeight * aspectRatio
        let imageRatio := dims.width / dims.height
        let scale :=
          if imageRatio > availableSpaceRatio then availableWidth
          else availableHeight * (imageRatio / aspectRatio)
        some { img with scale := scale * 0.95 }
      else some img
    | _, _ => none
  { aspectRatio := settings.aspectRatio
    aspectRatioValue := aspectRatioValue
    background :=
      { kind := "gradient"
        value := ""
        className := match backgroundPreset with
          | some p => p.className
          | none => "bg-gradient-to-br from-blue-500 to-purple-600"
        effects := { noise := 0.1 } }
    content := { padding := normalizedPadding, image := image } }

/-! ## The layout projector `computeCanvasStyles` -/

/-- The numeric image-dependent outputs of `computeCanvasStyles` (the pixel
values written into the returned CSS records). -/
structure ImageStyleNumbers where
  scaledImageWidth : ℚ
  scaledImageHeight : ℚ
  shadowOffsetXPx : ℚ
  shadowOffsetYPx : ℚ
  shadowBlurPx : ℚ
  borderRadiusPx : ℚ
  insetPx : ℚ
deriving DecidableEq, Repr

/-- The numeric outputs of `computeCanvasStyles`: the fitted canvas box, the
physical padding, and (when the model has an image) the image-dependent
numbers.  In the source the no-image branch returns empty style objects for
the image-related entries; that is `image = none` here. -/
structure CanvasStyleNumbers where
  canvasWidth : ℚ
  canvasHeight : ℚ
  paddingPx : ℚ
  image : Option ImageStyleNumbers
deriving DecidableEq, Repr

/-- `computeCanvasStyles` from the virtual-canvas module, restricted to the
numbers it computes (the CSS strings built from them are presentation).
`borderRadius ? ... : 0` tests JavaScript truthiness, i.e. `≠ 0` on numbers. -/
def computeCanvasStyles (model : VirtualCanvas) (containerSize : Size) :
    CanvasStyleNumbers :=
  let containerWidth := containerSize.width
  let containerHeight := containerSize.height
  let canvasAspectRatio := model.aspectRatioValue.width / model.aspectRatioValue.height
  let containerRatio := containerWidth / containerHeight
  let canvasWidth :=
    if containerRatio > canvasAspectRatio then containerHeight * canvasAspectRatio
    else containerWidth
  let canvasHeight :=
    if containerRatio > canvasAspectRatio then containerHeight
    else containerWidth / canvasAspectRatio
  let minCanvasDimension := min canvasWidth canvasHeight
  let paddingPx := minCanvasDimension * model.content.padding
  match model.content.image with
  | none =>
    { canvasWidth := canvasWidth, canvasHeight := canvasHeight,
      paddingPx := paddingPx, image := none }
  | some img =>
    let scaleFactor := min canvasWidth canvasHeight
    let scaledImageWidth := img.naturalWidth * img.scale * scaleFactor
    let scaledImageHeight := img.naturalHeight * img.scale * scaleFactor
    let shadowOffsetXPx := img.effects.shadow.offsetX * scaledImageWidth
    let shadowOffsetYPx := img.effects.shadow.offsetY * scaledImageHeight
    let shadowBlurPx := img.effects.shadow.blur * min scaledImageWidth scaledImageHeight
    let borderRadiusPx :=
      if img.effects.borderRadius ≠ 0 then
        img.effects.borderRadius * min scaledImageWidth scaledImageHeight
      else 0
    let insetPx := img.effects.inset.size * minCanvasDimension
    { canvasWidth := canvasWidth, canvasHeight := canvasHeight,
      paddingPx := paddingPx,
      image := some
        { scaledImageWidth := scaledImageWidth
          scaledImageHeight := scaledImageHeight
          shadowOffsetXPx := shadowOffsetXPx
          shadowOffsetYPx := shadowOffsetYPx
          shadowBlurPx := shadowBlurPx
          borderRadiusPx := borderRadiusPx
          insetPx := insetPx } }

/-! ## `calculateConstrainedSize` from `Canvas.tsx` -/

/-- Result of `calculateConstrainedSize`: either the `100%`/`100%` placeholder
(returned while the container measures zero) or concrete pixel dimensions. -/
inductive ConstrainedSize
  | fillAvailable
  | px (width height : ℚ)
deriving DecidableEq, Repr

/-- `calculateConstrainedSize` from `Canvas.tsx`: letterboxes the
`aspectWidth : aspectHeight` ratio into the measured container. -/
def calculateConstrainedSize (aspectWidth aspectHeight : ℚ)
    (containerSize : Size) : ConstrainedSize :=
  let parentWidth := containerSize.width
  let parentHeight := containerSize.height
  if parentWidth = 0 ∨ parentHeight = 0 then .fillAvailable
  else
    let targetRatio := aspectWidth / aspectHeight
    let parentRatio := parentWidth / parentHeight
    if parentRatio > targetRatio then .px (parentHeight * targetRatio) parentHeight
    else .px parentWidth (parentWidth / targetRatio)

/-! ## The export layout of `renderToCanvas` -/

/-- The geometric quantities `renderToCanvas` computes in its `img.onload`
handler and passes to the canvas drawing calls (image and inset rectangles,
shadow parameters, corner radius). -/
structure ExportLayout where
  paddingPx : ℚ
  insetPx : ℚ
  contentAreaWidth : ℚ
  contentAreaHeight : ℚ
  scaledWidth : ℚ
  scaledHeight : ℚ
  imageX : ℚ
  imageY : ℚ
  insetX : ℚ
  insetY : ℚ
  insetWidth : ℚ
  insetHeight : ℚ
  shadowOffsetXPx : ℚ
  shadowOffsetYPx : ℚ
  shadowBlurPx : ℚ
  borderRadiusPx : ℚ
deriving DecidableEq, Repr

/-- The layout part of `renderToCanvas` (lines after the background fill):
`none` when the model has no image, in which case the promise resolves with
the background-only canvas before the image branch is reached. -/
def renderToCanvasLayout (model : VirtualCanvas)
    (targetWidth targetHeight : ℚ) : Option ExportLayout :=
  model.content.image.map (fun img =>
    let minDimension := min targetWidth targetHeight
    let paddingPx := minDimension * model.content.padding
    let insetPx := minDimension * img.effects.inset.size
    let contentAreaWidth := targetWidth - paddingPx * 2
    let contentAreaHeight := targetHeight - paddingPx * 2
    let scaledWidth := img.naturalWidth * img.scale * minDimension
    let scaledHeight := img.naturalHeight * img.scale * minDimension
    let centerX := targetWidth / 2
    let centerY := targetHeight / 2
    let imageX := centerX - scaledWidth / 2
    let imageY := centerY - scaledHeight / 2
    let borderRadiusPx := img.effects.borderRadius * min scaledWidth scaledHeight
    { paddingPx := paddingPx
      insetPx := insetPx
      contentAreaWidth := contentAreaWidth
      contentAreaHeight := contentAreaHeight
      scaledWidth := scaledWidth
      scaledHeight := scaledHeight
      imageX := imageX
      imageY := imageY
      insetX := imageX - insetPx
      insetY := imageY - insetPx
      insetWidth := scaledWidth + insetPx * 2
      insetHeight := scaledHeight + insetPx * 2
      shadowOffsetXPx := img.effects.shadow.offsetX * scaledWidth
      shadowOffsetYPx := img.effects.shadow.offsetY * scaledHeight
      shadowBlurPx := img.effects.shadow.blur * min scaledWidth scaledHeight
      borderRadiusPx := borderRadiusPx })

/-! ## The background noise loop of `renderToCanvas` -/

/-- One RGBA pixel of the `ImageData` buffer, at rational precision (the
byte store of `Uint8ClampedArray` additionally quantizes; the properties
claimed — clamping range, alpha preservation, channel coupling — are about
the clamped values). -/
structure Pixel where
  r : ℚ
  g : ℚ
  b : ℚ
  a : ℚ
deriving DecidableEq, Repr

/-- `Math.min(255, Math.max(0, x))` applied to a color channel. -/
def clampChannel (x : ℚ) : ℚ := min 255 (max 0 x)

/-- One iteration of the noise loop in `renderToCanvas`: a single
`Math.random()` value `rand` perturbs the R, G and B channels of the pixel
by the same amount; alpha is not modified. -/
def applyNoisePixel (noiseOpacity : ℚ) (p : Pixel) (rand : ℚ) : Pixel :=
  let noise := (rand - 0.5) * 25 * noiseOpacity
  { r := clampChannel (p.r + noise)
    g := clampChannel (p.g + noise)
    b := clampChannel (p.b + noise)
    a := p.a }

/-- The whole noise loop over the pixel buffer: the source consumes one
`Math.random()` per pixel (the loop steps `i` by 4); `stream` supplies the
successive values of that random source. -/
def applyNoise (noiseOpacity : ℚ) : List Pixel → (ℕ → ℚ) → List Pixel
  | [], _ => []
  | p :: ps, stream =>
    applyNoisePixel noiseOpacity p (stream 0) ::
      applyNoise noiseOpacity ps (fun i => stream (i + 1))

/-- The noise stage of `renderToCanvas`: the loop runs only when
`model.background.effects.noise && model.background.effects.noise > 0`,
i.e. when the noise opacity is positive. -/
def renderNoiseStage (model : VirtualCanvas) (pixels : List Pixel)
    (stream : ℕ → ℚ) : List Pixel :=
  if model.background.effects.noise > 0 then
    applyNoise model.background.effects.noise pixels stream
  else pixels

/-- Modelled from the spec: the noise step as §4.4 describes it — "perturb
every pixel by independent per-channel noise scaled by `noiseOpacity`"
(alpha untouched, channels clamped to [0,255]).  Each of R, G, B draws its
own uniform random value, so one pixel consumes three stream values. -/
def applyNoisePixelPerChannel (noiseOpacity : ℚ) (p : Pixel)
    (randR randG randB : ℚ) : Pixel :=
  { r := clampChannel (p.r + (randR - 0.5) * 25 * noiseOpacity)
    g := clampChannel (p.g + (randG - 0.5) * 25 * noiseOpacity)
    b := clampChannel (p.b + (randB - 0.5) * 25 * noiseOpacity)
    a := p.a }

/-- Modelled from the spec: the per-channel-independent noise loop, consuming
three random values per pixel. -/
def applyNoisePerChannel (noiseOpacity : ℚ) : List Pixel → (ℕ → ℚ) → List Pixel
  | [], _ => []
  | p :: ps, stream =>
    applyNoisePixelPerChannel noiseOpacity p (stream 0) (stream 1) (stream 2) ::
      applyNoisePerChannel noiseOpacity ps (fun i => stream (i + 3))

/-! ## Export dimensions (`getAspectRatioDimensions` / `exportImage`) -/

/-- Result record of `getAspectRatioDimensions`. -/
structure AspectDimensions where
  width : ℚ
  height : ℚ
  exactDimensions : Bool
deriving DecidableEq, Repr

/-- The list of standard-ratio keys that `getAspectRatioDimensions` excludes
from `exactDimensions`. -/
def standardRatioKeys : List String :=
  ["4:3", "3:2", "16:9", "1:1", "9:16", "4:5", "1.91:1"]

/-- Parses a decimal numeral the way `Number` does on the strings that occur
in ratio keys (digits with an optional single decimal point). -/
def parseDecimal (s : String) : ℚ :=
  match s.splitOn "." with
  | [intPart] => ((intPart.toNat?).getD 0 : ℚ)
  | [intPart, fracPart] =>
    ((intPart.toNat?).getD 0 : ℚ) +
      ((fracPart.toNat?).getD 0 : ℚ) / (10 ^ fracPart.length : ℚ)
  | _ => 0

/-- `getAspectRatioDimensions` from `useScreenshot.ts`: catalog lookup with
the `exactDimensions` flag; for unknown keys containing `:` the source
destructures the first two `split(':')` parts (`[width, height] = ...`),
and otherwise falls back to 16:9. -/
def getAspectRatioDimensions (aspectRatioValue : String) : AspectDimensions :=
  match aspectRatioOptions.find? (fun opt => opt.value == aspectRatioValue) with
  | some aspectOption =>
    { width := aspectOption.width
      height := aspectOption.height
      exactDimensions := !standardRatioKeys.contains aspectRatioValue }
  | none =>
    if aspectRatioValue.contains ':' then
      match aspectRatioValue.splitOn ":" with
      | w :: h :: _ => { width := parseDecimal w, height := parseDecimal h,
                         exactDimensions := false }
      -- unreachable: a string containing ':' splits into at least two parts
      | _ => { width := 16, height := 9, exactDimensions := false }
    else { width := 16, height := 9, exactDimensions := false }

/-- `Math.round` (round half toward positive infinity). -/
def jsRound (x : ℚ) : ℤ := ⌊x + 0.5⌋

/-- The export-dimension computation inside `exportImage`: exact catalog
dimensions for social-media options, otherwise a 1920 base size on the long
edge with the other edge rounded from the ratio. -/
def exportImageDimensions (aspectRatioValue : String) : ℚ × ℚ :=
  let d := getAspectRatioDimensions aspectRatioValue
  let aspectRatio := d.width / d.height
  if d.exactDimensions then (d.width, d.height)
  else
    let baseExportSize : ℚ := 1920
    if aspectRatio ≥ 1 then (baseExportSize, (jsRound (baseExportSize / aspectRatio) : ℚ))
    else ((jsRound (baseExportSize * aspectRatio) : ℚ), baseExportSize)

/-- The `pixelRatio` option the source passes to `toPng` in `exportImage`. -/
def exportPixelRatio : ℚ := 2

/-- Modelled from the export stack the source uses (`html-to-image`'s
`toPng`, called with `width`, `height` and `pixelRatio: 2`): the library
sizes its output canvas at `width × pixelRatio` by `height × pixelRatio`,
so the downloadable PNG measures twice the computed target size per axis. -/
def exportedPngDimensions (aspectRatioValue : String) : ℚ × ℚ :=
  ((exportImageDimensions aspectRatioValue).1 * exportPixelRatio,
   (exportImageDimensions aspectRatioValue).2 * exportPixelRatio)

/-! ## The hook state and `updateSettings` -/

/-- A `Partial<ScreenshotSettings>`: each field optionally present. -/
structure PartialSettings where
  padding : Option ℚ := none
  inset : Option ℚ := none
  insetColor : Option String := none
  borderRadius : Option ℚ := none
  shadow : Option ℚ := none
  backgroundPreset : Option ℤ := none
  aspectRatio : Option String := none
deriving DecidableEq, Repr

/-- The state owned by the `useScreenshot` hook. -/
structure HookState where
  screenshotSrc : Option String
  settings : ScreenshotSettings
deriving DecidableEq, Repr

/-- The spread merge `{ ...prev, ...newSettings }`: fields present in the
update override, all others are copied from `prev`. -/
def mergeSettings (prev : ScreenshotSettings) (upd : PartialSettings) :
    ScreenshotSettings :=
  { padding := upd.padding.getD prev.padding
    inset := upd.inset.getD prev.inset
    insetColor := upd.insetColor.getD prev.insetColor
    borderRadius := upd.borderRadius.getD prev.borderRadius
    shadow := upd.shadow.getD prev.shadow
    backgroundPreset := upd.backgroundPreset.getD prev.backgroundPreset
    aspectRatio := upd.aspectRatio.getD prev.aspectRatio }

/-- `updateSettings` from `useScreenshot.ts`: only the settings slice of the
hook state changes, via the spread merge. -/
def updateSettings (upd : PartialSettings) (st : HookState) : HookState :=
  { st with settings := mergeSettings st.settings upd }

/-! ## Observers used by the theorems -/

/-- The image scale recorded in a model (`1`, the builder's initial value,
when no image is present). -/
def imageScale (m : VirtualCanvas) : ℚ :=
  match m.content.image with
  | some img => img.scale
  | none => 1

/-! ## Claims -/

/-- C3: for every padding input ≥ 0 and inset input ≥ 0, the model built by
`createCanvasModel` stores the padding divided by the reference unit 100 and
clamped to the hard ceiling 0.4, hence ≤ 0.4, and likewise the inset divided
by 100 and clamped to 0.2, hence ≤ 0.2. -/
theorem C3_normalization_ceilings
    (settings : ScreenshotSettings) (presets : List BackgroundPreset)
    (imageDimensions : Option Size) (options : List AspectRatioOption)
    (containerSize : Size)
    (hp : 0 ≤ settings.padding) (hi : 0 ≤ settings.inset) :
    (createCanvasModel settings presets imageDimensions options containerSize).content.padding
        = min (settings.padding / 100) 0.4 ∧
    (createCanvasModel settings presets imageDimensions options containerSize).content.padding
        ≤ 0.4 ∧
    ∀ img ∈ (createCanvasModel settings presets imageDimensions options containerSize).content.image,
      img.effects.inset.size = min (settings.inset / 100) 0.2 ∧
      img.effects.inset.size ≤ 0.2 := by
  refine ⟨rfl, min_le_right _ _, ?_⟩
  intro img hmem
  cases imageDimensions with
  | none => simp [createCanvasModel] at hmem
  | some d =>
    simp only [createCanvasModel, Option.map_some'] at hmem
    split at hmem <;>
      · simp only [Option.mem_def, Option.some.injEq] at hmem
        subst hmem
        exact ⟨rfl, min_le_right _ _⟩

/-- Witness for C3 at padding 40, inset 0 with an image present. -/
theorem C3_normalization_ceilings_witness :
    (createCanvasModel { defaultSettings with aspectRatio := "1:1" }
        backgroundPresets (some ⟨2000, 1000⟩) aspectRatioOptions
        ⟨1080, 1080⟩).content.padding ≤ 0.4 :=
  (C3_normalization_ceilings { defaultSettings with aspectRatio := "1:1" }
    backgroundPresets (some ⟨2000, 1000⟩) aspectRatioOptions ⟨1080, 1080⟩
    (by norm_num [defaultSettings]) (by norm_num [defaultSettings])).2.1

/-- C8: with no image loaded (`imageDimensions = null`) the built model has
`content.image = null`, the projector returns only the container/background
numbers (no image styles), and the export layout is background-only; all
three are total functions, so no exception and no absent-field access. -/
theorem C8_no_image_stability
    (settings : ScreenshotSettings) (presets : List BackgroundPreset)
    (options : List AspectRatioOption) (containerSize displaySize : Size)
    (targetWidth targetHeight : ℚ) :
    (createCanvasModel settings presets none options containerSize).content.image = none ∧
    (computeCanvasStyles
        (createCanvasModel settings presets none options containerSize)
        displaySize).image = none ∧
    renderToCanvasLayout
        (createCanvasModel settings presets none options containerSize)
        targetWidth targetHeight = none :=
  ⟨rfl, rfl, rfl⟩

/-- C10: `updateSettings` is a frame-preserving merge: every field named in
the partial update takes the update's value, every field not named keeps its
previous value, and the stored screenshot source is unchanged. -/
theorem C10_update_settings_frame (st : HookState) (upd : PartialSettings) :
    (∀ v, upd.padding = some v → (updateSettings upd st).settings.padding = v) ∧
    (upd.padding = none → (updateSettings upd st).settings.padding = st.settings.padding) ∧
    (∀ v, upd.inset = some v → (updateSettings upd st).settings.inset = v) ∧
    (upd.inset = none → (updateSettings upd st).settings.inset = st.settings.inset) ∧
    (∀ v, upd.insetColor = some v → (updateSettings upd st).settings.insetColor = v) ∧
    (upd.insetColor = none → (updateSettings upd st).settings.insetColor = st.settings.insetColor) ∧
    (∀ v, upd.borderRadius = some v → (updateSettings upd st).settings.borderRadius = v) ∧
    (upd.borderRadius = none → (updateSettings upd st).settings.borderRadius = st.settings.borderRadius) ∧
    (∀ v, upd.shadow = some v → (updateSettings upd st).settings.shadow = v) ∧
    (upd.shadow = none → (updateSettings upd st).settings.shadow = st.settings.shadow) ∧
    (∀ v, upd.backgroundPreset = some v → (updateSettings upd st).settings.backgroundPreset = v) ∧
    (upd.backgroundPreset = none → (updateSettings upd st).settings.backgroundPreset = st.settings.backgroundPreset) ∧
    (∀ v, upd.aspectRatio = some v → (updateSettings upd st).settings.aspectRatio = v) ∧
    (upd.aspectRatio = none → (updateSettings upd st).settings.aspectRatio = st.settings.aspectRatio) ∧
    (updateSettings upd st).screenshotSrc = st.screenshotSrc := by
  refine ⟨?_, ?_, ?_, ?_, ?_, ?_, ?_, ?_, ?_, ?_, ?_, ?_, ?_, ?_, rfl⟩ <;>
    first
      | (intro v h; simp [updateSettings, mergeSettings, h])
      | (intro h; simp [updateSettings, mergeSettings, h])

/-- Witness for C10: updating only the padding on the default state. -/
theorem C10_update_settings_frame_witness :
    (updateSettings { padding := some 7 } ⟨some "img", defaultSettings⟩).settings.padding = 7 ∧
    (updateSettings { padding := some 7 } ⟨some "img", defaultSettings⟩).settings.inset
        = defaultSettings.inset ∧
    (updateSettings { padding := some 7 } ⟨some "img", defaultSettings⟩).screenshotSrc
        = some "img" := by
  have h := C10_update_settings_frame ⟨some "img", defaultSettings⟩ { padding := some 7 }
  exact ⟨h.1 7 rfl, h.2.2.2.1 rfl, h.2.2.2.2.2.2.2.2.2.2.2.2.2.2⟩

/-- For every aspect-ratio option of the catalog, the `exportWidth` and
`exportHeight` that `exportImage` computes are the option's exact pixel
dimensions when it specifies them (`exactDimensions`), otherwise a
1920-pixel long edge with the other edge rounded from the ratio. -/
lemma exportImageDimensions_spec :
    ∀ opt ∈ aspectRatioOptions,
      ((getAspectRatioDimensions opt.value).exactDimensions = true →
        (exportImageDimensions opt.value).1 = opt.width ∧
        (exportImageDimensions opt.value).2 = opt.height) ∧
      ((getAspectRatioDimensions opt.value).exactDimensions = false →
        (((exportImageDimensions opt.value).1 = 1920 ∧
          (exportImageDimensions opt.value).2 ≤ 1920 ∧
          (exportImageDimensions opt.value).2 = (jsRound (1920 * opt.height / opt.width) : ℚ)) ∨
         ((exportImageDimensions opt.value).2 = 1920 ∧
          (exportImageDimensions opt.value).1 ≤ 1920 ∧
          (exportImageDimensions opt.value).1 = (jsRound (1920 * opt.width / opt.height) : ℚ)))) := by
  intro opt hopt
  fin_cases hopt <;>
    constructor <;> intro hex <;>
      first
        | (exfalso
           simp [getAspectRatioDimensions, aspectRatioOptions, standardRatioKeys,
             List.find?] at hex
           done)
        | (simp [exportImageDimensions, getAspectRatioDimensions, aspectRatioOptions,
             standardRatioKeys, List.find?, jsRound]
           try norm_num [Int.floor_eq_iff])

/-- C9 counterexample: "instagram-story" specifies 1080×1920, but the PNG
`exportImage` downloads measures 2160×3840 — the `toPng` call scales the
computed target by `pixelRatio: 2`, so the output is never at the option's
exact dimensions. -/
theorem C9_export_resolution_counterexample :
    exportedPngDimensions "instagram-story" ≠ ((1080 : ℚ), (1920 : ℚ)) ∧
    exportedPngDimensions "instagram-story" = ((2160 : ℚ), (3840 : ℚ)) := by
  have heval : exportedPngDimensions "instagram-story"
      = ((2160 : ℚ), (3840 : ℚ)) := by
    simp [exportedPngDimensions, exportPixelRatio, exportImageDimensions,
      getAspectRatioDimensions, aspectRatioOptions, standardRatioKeys,
      List.find?]
    norm_num
  refine ⟨?_, heval⟩
  rw [heval]
  intro h
  rw [Prod.mk.injEq] at h
  exact absurd h.1 (by norm_num)

/-- C9 (amended): for every aspect-ratio option of the catalog, `exportImage`
produces its downloadable PNG at a deterministic resolution derived from the
option, scaled by the fixed `pixelRatio` 2: twice the option's exact pixel
dimensions per axis when it specifies them, otherwise a 3840-pixel
(2 × 1920) long edge with the other edge twice the value rounded from the
ratio. -/
theorem C9_export_resolution_amended :
    ∀ opt ∈ aspectRatioOptions,
      ((getAspectRatioDimensions opt.value).exactDimensions = true →
        (exportedPngDimensions opt.value).1 = 2 * opt.width ∧
        (exportedPngDimensions opt.value).2 = 2 * opt.height) ∧
      ((getAspectRatioDimensions opt.value).exactDimensions = false →
        (((exportedPngDimensions opt.value).1 = 3840 ∧
          (exportedPngDimensions opt.value).2 ≤ 3840 ∧
          (exportedPngDimensions opt.value).2
            = 2 * (jsRound (1920 * opt.height / opt.width) : ℚ)) ∨
         ((exportedPngDimensions opt.value).2 = 3840 ∧
          (exportedPngDimensions opt.value).1 ≤ 3840 ∧
          (exportedPngDimensions opt.value).1
            = 2 * (jsRound (1920 * opt.width / opt.height) : ℚ)))) := by
  intro opt hopt
  have hspec := exportImageDimensions_spec opt hopt
  simp only [exportedPngDimensions, exportPixelRatio]
  constructor
  · intro hex
    obtain ⟨h1, h2⟩ := hspec.1 hex
    rw [h1, h2]
    exact ⟨by ring, by ring⟩
  · intro hex
    rcases hspec.2 hex with ⟨h1, h2, h3⟩ | ⟨h1, h2, h3⟩
    · exact Or.inl ⟨by rw [h1]; norm_num, by rw [h3]; linarith [h2], by rw [h3]; ring⟩
    · exact Or.inr ⟨by rw [h1]; norm_num, by rw [h3]; linarith [h2], by rw [h3]; ring⟩

/-- Witness for C9 (amended): an exact-dimension option and a ratio option. -/
theorem C9_export_resolution_amended_witness :
    ((exportedPngDimensions "instagram-story").1 = 2 * 1080 ∧
     (exportedPngDimensions "instagram-story").2 = 2 * 1920) ∧
    (((exportedPngDimensions "16:9").1 = 3840 ∧
      (exportedPngDimensions "16:9").2 ≤ 3840 ∧
      (exportedPngDimensions "16:9").2 = 2 * (jsRound (1920 * 9 / 16) : ℚ)) ∨
     ((exportedPngDimensions "16:9").2 = 3840 ∧
      (exportedPngDimensions "16:9").1 ≤ 3840 ∧
      (exportedPngDimensions "16:9").1 = 2 * (jsRound (1920 * 16 / 9) : ℚ))) :=
  ⟨(C9_export_resolution_amended ⟨"Instagram Story", "instagram-story", 1080, 1920⟩
      (by simp [aspectRatioOptions])).1
      (by simp [getAspectRatioDimensions, aspectRatioOptions, standardRatioKeys, List.find?]),
   (C9_export_resolution_amended ⟨"16:9", "16:9", 16, 9⟩ (by simp [aspectRatioOptions])).2
      (by simp [getAspectRatioDimensions, aspectRatioOptions, standardRatioKeys, List.find?])⟩

/-- The letterbox branch shared by `computeCanvasStyles` and
`calculateConstrainedSize`: the fitted box keeps the target ratio exactly and
fits inside the container. -/
lemma fit_branch (cw ch r : ℚ) (hcw : 0 < cw) (hch : 0 < ch) (hr : 0 < r) :
    ((if cw / ch > r then ch * r else cw) /
        (if cw / ch > r then ch else cw / r) = r) ∧
    (if cw / ch > r then ch * r else cw) ≤ cw ∧
    (if cw / ch > r then ch else cw / r) ≤ ch := by
  by_cases hgt : cw / ch > r
  · rw [if_pos hgt, if_pos hgt]
    refine ⟨mul_div_cancel_left₀ r (ne_of_gt hch), ?_, le_refl ch⟩
    have h1 : ch * r ≤ ch * (cw / ch) :=
      mul_le_mul_of_nonneg_left (le_of_lt hgt) (le_of_lt hch)
    have h2 : ch * (cw / ch) = cw := mul_div_cancel₀ cw (ne_of_gt hch)
    linarith
  · rw [if_neg hgt, if_neg hgt]
    have hle : cw / ch ≤ r := le_of_not_lt hgt
    refine ⟨?_, le_refl cw, ?_⟩
    · rw [div_div_eq_mul_div, mul_comm]
      exact mul_div_cancel_right₀ r (ne_of_gt hcw)
    · rw [div_le_iff hr]
      have := (div_le_iff hch).mp hle
      linarith [mul_comm ch r]

/-- C4: for every positive container and positive aspect-ratio value, the
letterboxed canvas box computed by the projector `computeCanvasStyles` has
exactly the model's ratio and does not exceed the container; the same holds
for `calculateConstrainedSize` in `Canvas.tsx` (which returns concrete pixel
dimensions for positive containers). -/
theorem C4_ratio_fit (model : VirtualCanvas) (container : Size)
    (aspectWidth aspectHeight : ℚ)
    (hw : 0 < container.width) (hh : 0 < container.height)
    (hrw : 0 < model.aspectRatioValue.width)
    (hrh : 0 < model.aspectRatioValue.height)
    (haw : 0 < aspectWidth) (hah : 0 < aspectHeight) :
    ((computeCanvasStyles model container).canvasWidth /
        (computeCanvasStyles model container).canvasHeight =
      model.aspectRatioValue.width / model.aspectRatioValue.height) ∧
    (computeCanvasStyles model container).canvasWidth ≤ container.width ∧
    (computeCanvasStyles model container).canvasHeight ≤ container.height ∧
    ∃ w h : ℚ, calculateConstrainedSize aspectWidth aspectHeight container
        = .px w h ∧
      w / h = aspectWidth / aspectHeight ∧
      w ≤ container.width ∧ h ≤ container.height := by
  have hfit := fit_branch container.width container.height
    (model.aspectRatioValue.width / model.aspectRatioValue.height)
    hw hh (div_pos hrw hrh)
  have hcs : (computeCanvasStyles model container).canvasWidth =
      (if container.width / container.height >
          model.aspectRatioValue.width / model.aspectRatioValue.height then
        container.height *
          (model.aspectRatioValue.width / model.aspectRatioValue.height)
      else container.width) ∧
      (computeCanvasStyles model container).canvasHeight =
      (if container.width / container.height >
          model.aspectRatioValue.width / model.aspectRatioValue.height then
        container.height
      else container.width /
          (model.aspectRatioValue.width / model.aspectRatioValue.height)) := by
    rcases hmi : model.content.image with _ | img <;>
      simp [computeCanvasStyles, hmi]
  refine ⟨?_, ?_, ?_, ?_⟩
  · rw [hcs.1, hcs.2]; exact hfit.1
  · rw [hcs.1]; exact hfit.2.1
  · rw [hcs.2]; exact hfit.2.2
  · have hz : ¬(container.width = 0 ∨ container.height = 0) := by
      push_neg; exact ⟨ne_of_gt hw, ne_of_gt hh⟩
    have hfit2 := fit_branch container.width container.height
      (aspectWidth / aspectHeight) hw hh (div_pos haw hah)
    refine ⟨_, _, ?_, hfit2.1, hfit2.2.1, hfit2.2.2⟩
    simp only [calculateConstrainedSize, if_neg hz]
    split <;> rfl

/-- Witness for C4 at a 16:9 model in an 800×600 container. -/
theorem C4_ratio_fit_witness :
    ((computeCanvasStyles
        (createCanvasModel defaultSettings backgroundPresets none
          aspectRatioOptions ⟨800, 600⟩) ⟨800, 600⟩).canvasWidth /
      (computeCanvasStyles
        (createCanvasModel defaultSettings backgroundPresets none
          aspectRatioOptions ⟨800, 600⟩) ⟨800, 600⟩).canvasHeight =
      (createCanvasModel defaultSettings backgroundPresets none
          aspectRatioOptions ⟨800, 600⟩).aspectRatioValue.width /
        (createCanvasModel defaultSettings backgroundPresets none
          aspectRatioOptions ⟨800, 600⟩).aspectRatioValue.height) ∧
    (computeCanvasStyles
        (createCanvasModel defaultSettings backgroundPresets none
          aspectRatioOptions ⟨800, 600⟩) ⟨800, 600⟩).canvasWidth ≤ 800 ∧
    (computeCanvasStyles
        (createCanvasModel defaultSettings backgroundPresets none
          aspectRatioOptions ⟨800, 600⟩) ⟨800, 600⟩).canvasHeight ≤ 600 ∧
    ∃ w h : ℚ, calculateConstrainedSize 16 9 ⟨800, 600⟩ = .px w h ∧
      w / h = 16 / 9 ∧ w ≤ 800 ∧ h ≤ 600 :=
  C4_ratio_fit
    (createCanvasModel defaultSettings backgroundPresets none
      aspectRatioOptions ⟨800, 600⟩) ⟨800, 600⟩ 16 9
    (by norm_num) (by norm_num)
    (by simp [createCanvasModel, aspectRatioOptions, defaultSettings, List.find?])
    (by simp [createCanvasModel, aspectRatioOptions, defaultSettings, List.find?])
    (by norm_num) (by norm_num)

/-- Every catalog option has positive ratio components. -/
lemma aspectRatioOptions_pos :
    ∀ opt ∈ aspectRatioOptions, 0 < opt.width ∧ 0 < opt.height := by
  intro opt hopt
  fin_cases hopt <;> norm_num

/-- The ratio the builder resolves (with the `|| 16` / `|| 9` fallbacks) is
positive in both components. -/
lemma resolved_ratio_pos (v : String) :
    0 < (match aspectRatioOptions.find? (fun opt => opt.value == v) with
         | some o => if o.width = 0 then 16 else o.width
         | none => (16 : ℚ)) ∧
    0 < (match aspectRatioOptions.find? (fun opt => opt.value == v) with
         | some o => if o.height = 0 then 9 else o.height
         | none => (9 : ℚ)) := by
  rcases hf : aspectRatioOptions.find? (fun opt => opt.value == v) with _ | o
  · simp only [hf]
    constructor <;> norm_num
  · have hmem : o ∈ aspectRatioOptions := List.mem_of_find?_eq_some hf
    have hpos := aspectRatioOptions_pos o hmem
    simp only [hf]
    constructor
    · rw [if_neg (ne_of_gt hpos.1)]; exact hpos.1
    · rw [if_neg (ne_of_gt hpos.2)]; exact hpos.2

/-- Closed form of the builder's branch on the binding constraint: writing
the available fraction `z`, the selected scale is `z * min 1 (ir / a)`
(also at `z = 0`, where the ℚ and the JavaScript NaN paths both yield 0). -/
lemma scale_closed_form (a ir z : ℚ) (ha : 0 < a) (hir : 0 < ir) :
    (if ir > z / z * a then z else z * (ir / a)) = z * min 1 (ir / a) := by
  by_cases hz : z = 0
  · subst hz
    simp only [zero_div, zero_mul, if_pos hir]
  · simp only [div_self hz, one_mul]
    by_cases hcmp : ir > a
    · have h1 : (1 : ℚ) ≤ ir / a := (one_le_div ha).mpr (le_of_lt hcmp)
      rw [if_pos hcmp, min_eq_left h1, mul_one]
    · have h1 : ir / a ≤ 1 := (div_le_one ha).mpr (le_of_not_lt hcmp)
      rw [if_neg hcmp, min_eq_right h1]

/-- The scale selected by the builder is monotone in the available fraction. -/
lemma scale_if_mono (a ir x y : ℚ) (ha : 0 < a) (hir : 0 < ir) (hxy : x ≤ y) :
    (if ir > x / x * a then x else x * (ir / a)) * 0.95 ≤
    (if ir > y / y * a then y else y * (ir / a)) * 0.95 := by
  rw [scale_closed_form a ir x ha hir, scale_closed_form a ir y ha hir]
  have hc : 0 ≤ min 1 (ir / a) :=
    le_min (by norm_num) (le_of_lt (div_pos hir ha))
  have h1 : x * min 1 (ir / a) ≤ y * min 1 (ir / a) :=
    mul_le_mul_of_nonneg_right hxy hc
  have h2 : (0 : ℚ) ≤ 0.95 := by norm_num
  exact mul_le_mul_of_nonneg_right h1 h2

/-- C5: with the image natural size, aspect option and container fixed,
increasing only the padding — or only the inset — never increases the image
scale computed by `createCanvasModel`. -/
theorem C5_scale_monotonicity (s : ScreenshotSettings) (dims container : Size)
    (p1 p2 i1 i2 : ℚ) (hdw : 0 < dims.width) (hdh : 0 < dims.height) :
    (p1 ≤ p2 →
      imageScale (createCanvasModel { s with padding := p2 } backgroundPresets
          (some dims) aspectRatioOptions container) ≤
        imageScale (createCanvasModel { s with padding := p1 } backgroundPresets
          (some dims) aspectRatioOptions container)) ∧
    (i1 ≤ i2 →
      imageScale (createCanvasModel { s with inset := i2 } backgroundPresets
          (some dims) aspectRatioOptions container) ≤
        imageScale (createCanvasModel { s with inset := i1 } backgroundPresets
          (some dims) aspectRatioOptions container)) := by
  have hir : 0 < dims.width / dims.height := div_pos hdw hdh
  have hrp := resolved_ratio_pos s.aspectRatio
  have ha := div_pos hrp.1 hrp.2
  constructor <;> intro hle <;>
    by_cases hc : container.width > 0 ∧ container.height > 0
  · simp only [createCanvasModel, imageScale, Option.map_some', if_pos hc]
    exact scale_if_mono _ _ _ _ ha hir (by
      have hm : min (p1 / 100) 0.4 ≤ min (p2 / 100) 0.4 :=
        min_le_min (by linarith) (le_refl _)
      linarith)
  · simp only [createCanvasModel, imageScale, Option.map_some', if_neg hc]
    exact le_refl _
  · simp only [createCanvasModel, imageScale, Option.map_some', if_pos hc]
    exact scale_if_mono _ _ _ _ ha hir (by
      have hm : min (i1 / 100) 0.2 ≤ min (i2 / 100) 0.2 :=
        min_le_min (by linarith) (le_refl _)
      linarith)
  · simp only [createCanvasModel, imageScale, Option.map_some', if_neg hc]
    exact le_refl _

/-- Witness for C5: padding 20 versus 40 and inset 5 versus 10 for a
2000×1000 image in a square container. -/
theorem C5_scale_monotonicity_witness :
    imageScale (createCanvasModel { defaultSettings with padding := 40 }
        backgroundPresets (some ⟨2000, 1000⟩) aspectRatioOptions ⟨1080, 1080⟩) ≤
      imageScale (createCanvasModel { defaultSettings with padding := 20 }
        backgroundPresets (some ⟨2000, 1000⟩) aspectRatioOptions ⟨1080, 1080⟩) :=
  (C5_scale_monotonicity defaultSettings ⟨2000, 1000⟩ ⟨1080, 1080⟩ 20 40 5 10
    (by norm_num) (by norm_num)).1 (by norm_num)

/-! ## Noise-loop properties -/

/-- Closeness of two pixels: equal alpha, every color channel within `tol`. -/
def PixelClose (tol : ℚ) (p q : Pixel) : Prop :=
  p.a = q.a ∧ |p.r - q.r| ≤ tol ∧ |p.g - q.g| ≤ tol ∧ |p.b - q.b| ≤ tol

/-- The channel clamp is 1-Lipschitz. -/
lemma abs_clampChannel_sub_le (a b : ℚ) :
    |clampChannel a - clampChannel b| ≤ |a - b| := by
  unfold clampChannel
  refine le_trans (abs_min_sub_min_le_max 255 (max 0 a) 255 (max 0 b)) ?_
  rw [sub_self, abs_zero]
  rw [max_eq_right (abs_nonneg _)]
  rw [max_comm 0 a, max_comm 0 b]
  exact abs_max_sub_max_le_abs a b 0

/-- Two runs of the per-pixel noise step with draws in `[0,1]` stay within
`25 * noiseOpacity` on every color channel and agree on alpha. -/
lemma applyNoisePixel_close (n : ℚ) (hn : 0 ≤ n) (p : Pixel) (r1 r2 : ℚ)
    (h1 : 0 ≤ r1) (h1' : r1 ≤ 1) (h2 : 0 ≤ r2) (h2' : r2 ≤ 1) :
    PixelClose (25 * n) (applyNoisePixel n p r1) (applyNoisePixel n p r2) := by
  have key : ∀ c : ℚ,
      |clampChannel (c + (r1 - 0.5) * 25 * n) -
        clampChannel (c + (r2 - 0.5) * 25 * n)| ≤ 25 * n := by
    intro c
    refine le_trans (abs_clampChannel_sub_le _ _) ?_
    have hdiff : (c + (r1 - 0.5) * 25 * n) - (c + (r2 - 0.5) * 25 * n)
        = (r1 - r2) * (25 * n) := by ring
    rw [hdiff, abs_mul, abs_of_nonneg (by linarith : (0:ℚ) ≤ 25 * n)]
    have habs : |r1 - r2| ≤ 1 := abs_sub_le_iff.mpr ⟨by linarith, by linarith⟩
    calc |r1 - r2| * (25 * n) ≤ 1 * (25 * n) :=
          mul_le_mul_of_nonneg_right habs (by linarith)
      _ = 25 * n := one_mul _
  exact ⟨rfl, key p.r, key p.g, key p.b⟩

/-- Two runs of the whole noise loop with draws in `[0,1]` are pointwise
within `25 * noiseOpacity` on the color channels with alphas identical. -/
lemma applyNoise_close (n : ℚ) (hn : 0 ≤ n) :
    ∀ (ps : List Pixel) (s1 s2 : ℕ → ℚ),
      (∀ i, 0 ≤ s1 i ∧ s1 i ≤ 1) → (∀ i, 0 ≤ s2 i ∧ s2 i ≤ 1) →
      List.Forall₂ (PixelClose (25 * n)) (applyNoise n ps s1) (applyNoise n ps s2)
  | [], _, _, _, _ => List.Forall₂.nil
  | p :: ps, s1, s2, h1, h2 =>
    List.Forall₂.cons
      (applyNoisePixel_close n hn p (s1 0) (s2 0)
        (h1 0).1 (h1 0).2 (h2 0).1 (h2 0).2)
      (applyNoise_close n hn ps _ _ (fun i => h1 (i + 1)) (fun i => h2 (i + 1)))

/-- `PixelClose` is reflexive for nonnegative tolerance. -/
lemma pixelClose_refl (tol : ℚ) (h : 0 ≤ tol) (p : Pixel) : PixelClose tol p p := by
  refine ⟨rfl, ?_, ?_, ?_⟩ <;> rw [sub_self, abs_zero] <;> exact h

/-- C6: the projector and the export layout are pure functions of their
inputs (two calls with identical arguments agree exactly), and two runs of
the exporter's random background-noise stage on identical inputs produce
pixel buffers that agree on every alpha and differ by at most
`25 × noiseOpacity` on every color channel (tolerance-equal output). -/
theorem C6_idempotence :
    (∀ (m : VirtualCanvas) (c : Size) (tw th : ℚ),
      computeCanvasStyles m c = computeCanvasStyles m c ∧
      renderToCanvasLayout m tw th = renderToCanvasLayout m tw th) ∧
    ∀ (m : VirtualCanvas) (pixels : List Pixel) (s1 s2 : ℕ → ℚ),
      0 ≤ m.background.effects.noise →
      (∀ i, 0 ≤ s1 i ∧ s1 i ≤ 1) → (∀ i, 0 ≤ s2 i ∧ s2 i ≤ 1) →
      List.Forall₂ (PixelClose (25 * m.background.effects.noise))
        (renderNoiseStage m pixels s1) (renderNoiseStage m pixels s2) := by
  refine ⟨fun m c tw th => ⟨rfl, rfl⟩, ?_⟩
  intro m pixels s1 s2 hn h1 h2
  unfold renderNoiseStage
  split
  · exact applyNoise_close _ hn pixels s1 s2 h1 h2
  · exact List.forall₂_same.mpr
      (fun p _ => pixelClose_refl _ (mul_nonneg (by norm_num) hn) p)

/-- Witness for C6 on a one-pixel buffer with two extreme random streams. -/
theorem C6_idempotence_witness :
    List.Forall₂
      (PixelClose (25 * (⟨"1:1", ⟨1, 1⟩, ⟨"gradient", "", "bg", ⟨1/10⟩⟩,
          ⟨2/5, none⟩⟩ : VirtualCanvas).background.effects.noise))
      (renderNoiseStage
        ⟨"1:1", ⟨1, 1⟩, ⟨"gradient", "", "bg", ⟨1/10⟩⟩, ⟨2/5, none⟩⟩
        [⟨100, 150, 200, 255⟩] (fun _ => 0))
      (renderNoiseStage
        ⟨"1:1", ⟨1, 1⟩, ⟨"gradient", "", "bg", ⟨1/10⟩⟩, ⟨2/5, none⟩⟩
        [⟨100, 150, 200, 255⟩] (fun _ => 1)) :=
  C6_idempotence.2
    ⟨"1:1", ⟨1, 1⟩, ⟨"gradient", "", "bg", ⟨1/10⟩⟩, ⟨2/5, none⟩⟩
    [⟨100, 150, 200, 255⟩] (fun _ => 0) (fun _ => 1)
    (by norm_num) (fun i => by norm_num) (fun i => by norm_num)

/-- C7 counterexample: with the same random source, the code's noise loop
(one draw per pixel, shared by R, G and B) differs from the spec's
per-channel-independent loop on a concrete one-pixel buffer, and on a
concrete draw the code's G-channel perturbation equals its R-channel
perturbation — the channels are not perturbed independently. -/
theorem C7_noise_counterexample :
    applyNoise (1/10) [⟨100, 150, 200, 255⟩]
        (fun i => if i = 0 then 0 else 3/4) ≠
      applyNoisePerChannel (1/10) [⟨100, 150, 200, 255⟩]
        (fun i => if i = 0 then 0 else 3/4) ∧
    (applyNoisePixel (1/10) ⟨100, 150, 200, 255⟩ (3/4)).g - 150 =
      (applyNoisePixel (1/10) ⟨100, 150, 200, 255⟩ (3/4)).r - 100 := by
  constructor
  · intro h
    simp only [applyNoise, applyNoisePerChannel, applyNoisePixel,
      applyNoisePixelPerChannel, clampChannel, List.cons.injEq, Pixel.mk.injEq] at h
    norm_num [min_def, max_def] at h
  · simp only [applyNoisePixel, clampChannel]
    norm_num [min_def, max_def]

/-- The noise loop preserves list length. -/
lemma applyNoise_length (n : ℚ) :
    ∀ (ps : List Pixel) (stream : ℕ → ℚ),
      (applyNoise n ps stream).length = ps.length
  | [], _ => rfl
  | _ :: ps, stream => by
      simp only [applyNoise, List.length_cons, applyNoise_length n ps]

/-- Element `i` of the noise loop's output is the per-pixel step applied to
element `i` of the input with draw `stream i`. -/
lemma applyNoise_get (n : ℚ) :
    ∀ (ps : List Pixel) (stream : ℕ → ℚ) (i : ℕ)
      (ho : i < (applyNoise n ps stream).length) (hi : i < ps.length),
      (applyNoise n ps stream).get ⟨i, ho⟩ =
        applyNoisePixel n (ps.get ⟨i, hi⟩) (stream i)
  | [], _, i, _, hi => absurd hi (Nat.not_lt_zero i)
  | p :: ps, stream, 0, _, _ => rfl
  | p :: ps, stream, j + 1, ho, hi => by
      simp only [applyNoise, List.get_cons_succ]
      exact applyNoise_get n ps _ j _ (Nat.lt_of_succ_lt_succ hi)

/-- What one output pixel of the (amended) noise stage looks like: a single
draw `rand` perturbs R, G and B by the same amount, each channel is clamped
into `[0, 255]`, and alpha is copied. -/
def SharedNoiseResult (n rand : ℚ) (p q : Pixel) : Prop :=
  q.r = clampChannel (p.r + (rand - 0.5) * 25 * n) ∧
  q.g = clampChannel (p.g + (rand - 0.5) * 25 * n) ∧
  q.b = clampChannel (p.b + (rand - 0.5) * 25 * n) ∧
  q.a = p.a ∧
  0 ≤ q.r ∧ q.r ≤ 255 ∧ 0 ≤ q.g ∧ q.g ≤ 255 ∧ 0 ≤ q.b ∧ q.b ≤ 255

/-- The clamp lands in `[0, 255]`. -/
lemma clampChannel_mem (x : ℚ) : 0 ≤ clampChannel x ∧ clampChannel x ≤ 255 :=
  ⟨le_min (by norm_num) (le_max_left 0 x), min_le_left 255 _⟩

/-- C7 (amended): when the model's noise opacity is positive, `renderToCanvas`
perturbs every background pixel by one uniform draw scaled by
`25 × noiseOpacity`, applied equally to R, G and B, with every color channel
clamped to `[0, 255]` and alpha unchanged. -/
theorem C7_noise_amended (m : VirtualCanvas) (pixels : List Pixel)
    (stream : ℕ → ℚ) (hn : m.background.effects.noise > 0) :
    ∀ (i : ℕ) (hi : i < pixels.length)
      (ho : i < (renderNoiseStage m pixels stream).length),
      SharedNoiseResult m.background.effects.noise (stream i)
        (pixels.get ⟨i, hi⟩) ((renderNoiseStage m pixels stream).get ⟨i, ho⟩) := by
  intro i hi ho
  have hstage : renderNoiseStage m pixels stream =
      applyNoise m.background.effects.noise pixels stream := by
    unfold renderNoiseStage
    rw [if_pos hn]
  have hget : (renderNoiseStage m pixels stream).get ⟨i, ho⟩ =
      applyNoisePixel m.background.effects.noise (pixels.get ⟨i, hi⟩) (stream i) := by
    revert ho
    rw [hstage]
    intro ho
    exact applyNoise_get m.background.effects.noise pixels stream i ho hi
  rw [hget]
  refine ⟨rfl, rfl, rfl, rfl, ?_, ?_, ?_, ?_, ?_, ?_⟩ <;>
    first
      | exact (clampChannel_mem _).1
      | exact (clampChannel_mem _).2

/-- Witness for C7 (amended) on a one-pixel buffer with draw 1. -/
theorem C7_noise_amended_witness :
    SharedNoiseResult (1/10) 1 (⟨10, 20, 30, 40⟩ : Pixel)
      ((renderNoiseStage
          ⟨"1:1", ⟨1, 1⟩, ⟨"gradient", "", "bg", ⟨1/10⟩⟩, ⟨2/5, none⟩⟩
          [⟨10, 20, 30, 40⟩] (fun _ => 1)).get
        ⟨0, by simp [renderNoiseStage, applyNoise]⟩) :=
  C7_noise_amended
    ⟨"1:1", ⟨1, 1⟩, ⟨"gradient", "", "bg", ⟨1/10⟩⟩, ⟨2/5, none⟩⟩
    [⟨10, 20, 30, 40⟩] (fun _ => 1) (by norm_num) 0 (by norm_num) _

/-! ## Preview/export parity -/

/-- An axis-aligned box in canvas coordinates. -/
structure Rect where
  x : ℚ
  y : ℚ
  width : ℚ
  height : ℚ
deriving DecidableEq, Repr

/-- Position and size of a box as fractions of the canvas size. -/
def rectFractions (r : Rect) (canvasW canvasH : ℚ) : ℚ × ℚ × ℚ × ℚ :=
  (r.x / canvasW, r.y / canvasH, r.width / canvasW, r.height / canvasH)

/-- The canvas box and the three element boxes of a rendered composition. -/
structure CanvasBoxes where
  canvasWidth : ℚ
  canvasHeight : ℚ
  paddingBox : Rect
  imageBox : Rect
  insetBox : Rect
deriving DecidableEq, Repr

/-- The element boxes realized by the projector's styles.  Every nesting
level of `computeCanvasStyles` centers its child (`margin: 0 auto` on the
container, flex `alignItems`/`justifyContent: center` on the inner, padding
and content containers), so the padding box insets the canvas by `paddingPx`
on each side, the image box of size `scaledImageWidth × scaledImageHeight`
is centered, and the inset wrapper extends the image box by `insetPx`. -/
def projectorBoxes (model : VirtualCanvas) (containerSize : Size) :
    Option CanvasBoxes :=
  let s := computeCanvasStyles model containerSize
  s.image.map (fun imgS =>
    { canvasWidth := s.canvasWidth
      canvasHeight := s.canvasHeight
      paddingBox := ⟨s.paddingPx, s.paddingPx,
        s.canvasWidth - s.paddingPx * 2, s.canvasHeight - s.paddingPx * 2⟩
      imageBox := ⟨(s.canvasWidth - imgS.scaledImageWidth) / 2,
        (s.canvasHeight - imgS.scaledImageHeight) / 2,
        imgS.scaledImageWidth, imgS.scaledImageHeight⟩
      insetBox := ⟨(s.canvasWidth - imgS.scaledImageWidth) / 2 - imgS.insetPx,
        (s.canvasHeight - imgS.scaledImageHeight) / 2 - imgS.insetPx,
        imgS.scaledImageWidth + imgS.insetPx * 2,
        imgS.scaledImageHeight + imgS.insetPx * 2⟩ })

/-- The element boxes the exporter draws: the image rectangle at
`(imageX, imageY)`, the inset rectangle around it, and the padding box
implied by `paddingPx`/`contentArea`. -/
def exporterBoxes (model : VirtualCanvas) (targetWidth targetHeight : ℚ) :
    Option CanvasBoxes :=
  (renderToCanvasLayout model targetWidth targetHeight).map (fun layout =>
    { canvasWidth := targetWidth
      canvasHeight := targetHeight
      paddingBox := ⟨layout.paddingPx, layout.paddingPx,
        layout.contentAreaWidth, layout.contentAreaHeight⟩
      imageBox := ⟨layout.imageX, layout.imageY,
        layout.scaledWidth, layout.scaledHeight⟩
      insetBox := ⟨layout.insetX, layout.insetY,
        layout.insetWidth, layout.insetHeight⟩ })

/-- For a box with the ratio `rw : rh`, the shorter side over either side
depends only on the ratio. -/
lemma min_div_of_ratio_eq (w h rw rh : ℚ) (hw : 0 < w) (hh : 0 < h)
    (hrw : 0 < rw) (hrh : 0 < rh) (hx : w * rh = h * rw) :
    min w h / w = min rw rh / rw ∧ min w h / h = min rw rh / rh := by
  rcases le_total rw rh with hle | hle
  · have hwh : w ≤ h := by
      have h1 : w * rw ≤ h * rw := by
        calc w * rw ≤ w * rh := mul_le_mul_of_nonneg_left hle (le_of_lt hw)
          _ = h * rw := hx
      exact le_of_mul_le_mul_right h1 hrw
    rw [min_eq_left hwh, min_eq_left hle, div_self (ne_of_gt hw),
      div_self (ne_of_gt hrw)]
    exact ⟨rfl, (div_eq_div_iff (ne_of_gt hh) (ne_of_gt hrh)).mpr
      (by linarith [hx])⟩
  · have hwh : h ≤ w := by
      have h1 : h * rh ≤ w * rh := by
        calc h * rh ≤ h * rw := mul_le_mul_of_nonneg_left hle (le_of_lt hh)
          _ = w * rh := hx.symm
      exact le_of_mul_le_mul_right h1 hrh
    rw [min_eq_right hwh, min_eq_right hle, div_self (ne_of_gt hh),
      div_self (ne_of_gt hrh)]
    exact ⟨(div_eq_div_iff (ne_of_gt hw) (ne_of_gt hrw)).mpr
      (by linarith [hx]), rfl⟩

/-- C1: for a model with an image and any two positive sizes A (the canvas
the projector letterboxes to) and B (the exporter's target), both of the
model's aspect ratio, every element box — padding box, image box, inset
box — has identical position and size as a fraction of canvas size in the
projector's layout at A and the exporter's layout at B. -/
theorem C1_preview_export_parity (model : VirtualCanvas) (A B : Size)
    (img : CanvasImage) (hmi : model.content.image = some img)
    (hrw : 0 < model.aspectRatioValue.width)
    (hrh : 0 < model.aspectRatioValue.height)
    (hAw : 0 < A.width) (hAh : 0 < A.height)
    (hBw : 0 < B.width) (hBh : 0 < B.height)
    (hA : A.width * model.aspectRatioValue.height
        = A.height * model.aspectRatioValue.width)
    (hB : B.width * model.aspectRatioValue.height
        = B.height * model.aspectRatioValue.width) :
    ∃ P E : CanvasBoxes,
      projectorBoxes model A = some P ∧
      exporterBoxes model B.width B.height = some E ∧
      P.canvasWidth = A.width ∧ P.canvasHeight = A.height ∧
      rectFractions P.paddingBox P.canvasWidth P.canvasHeight =
        rectFractions E.paddingBox E.canvasWidth E.canvasHeight ∧
      rectFractions P.imageBox P.canvasWidth P.canvasHeight =
        rectFractions E.imageBox E.canvasWidth E.canvasHeight ∧
      rectFractions P.insetBox P.canvasWidth P.canvasHeight =
        rectFractions E.insetBox E.canvasWidth E.canvasHeight := by
  have hratio : A.width / A.height
      = model.aspectRatioValue.width / model.aspectRatioValue.height :=
    (div_eq_div_iff (ne_of_gt hAh) (ne_of_gt hrh)).mpr (by linarith [hA])
  have hcond : ¬(A.width / A.height >
      model.aspectRatioValue.width / model.aspectRatioValue.height) := by
    rw [hratio]; exact lt_irrefl _
  have hch : A.width /
      (model.aspectRatioValue.width / model.aspectRatioValue.height)
      = A.height := by
    rw [div_div_eq_mul_div, hA]
    exact mul_div_cancel_right₀ A.height (ne_of_gt hrw)
  have hP : projectorBoxes model A = some
      { canvasWidth := A.width
        canvasHeight := A.height
        paddingBox := ⟨min A.width A.height * model.content.padding,
          min A.width A.height * model.content.padding,
          A.width - min A.width A.height * model.content.padding * 2,
          A.height - min A.width A.height * model.content.padding * 2⟩
        imageBox :=
          ⟨(A.width - img.naturalWidth * img.scale * min A.width A.height) / 2,
          (A.height - img.naturalHeight * img.scale * min A.width A.height) / 2,
          img.naturalWidth * img.scale * min A.width A.height,
          img.naturalHeight * img.scale * min A.width A.height⟩
        insetBox :=
          ⟨(A.width - img.naturalWidth * img.scale * min A.width A.height) / 2
              - img.effects.inset.size * min A.width A.height,
          (A.height - img.naturalHeight * img.scale * min A.width A.height) / 2
              - img.effects.inset.size * min A.width A.height,
          img.naturalWidth * img.scale * min A.width A.height
              + img.effects.inset.size * min A.width A.height * 2,
          img.naturalHeight * img.scale * min A.width A.height
              + img.effects.inset.size * min A.width A.height * 2⟩ } := by
    simp only [projectorBoxes, computeCanvasStyles, hmi, if_neg hcond, hch,
      Option.map_some']
  have hE : exporterBoxes model B.width B.height = some
      { canvasWidth := B.width
        canvasHeight := B.height
        paddingBox := ⟨min B.width B.height * model.content.padding,
          min B.width B.height * model.content.padding,
          B.width - min B.width B.height * model.content.padding * 2,
          B.height - min B.width B.height * model.content.padding * 2⟩
        imageBox := ⟨B.width / 2
            - img.naturalWidth * img.scale * min B.width B.height / 2,
          B.height / 2
            - img.naturalHeight * img.scale * min B.width B.height / 2,
          img.naturalWidth * img.scale * min B.width B.height,
          img.naturalHeight * img.scale * min B.width B.height⟩
        insetBox := ⟨B.width / 2
            - img.naturalWidth * img.scale * min B.width B.height / 2
            - min B.width B.height * img.effects.inset.size,
          B.height / 2
            - img.naturalHeight * img.scale * min B.width B.height / 2
            - min B.width B.height * img.effects.inset.size,
          img.naturalWidth * img.scale * min B.width B.height
            + min B.width B.height * img.effects.inset.size * 2,
          img.naturalHeight * img.scale * min B.width B.height
            + min B.width B.height * img.effects.inset.size * 2⟩ } := by
    simp only [exporterBoxes, renderToCanvasLayout, hmi, Option.map_some']
  have hminA := min_div_of_ratio_eq A.width A.height
    model.aspectRatioValue.width model.aspectRatioValue.height
    hAw hAh hrw hrh hA
  have hminB := min_div_of_ratio_eq B.width B.height
    model.aspectRatioValue.width model.aspectRatioValue.height
    hBw hBh hrw hrh hB
  have E1 : min A.width A.height * B.width = min B.width B.height * A.width :=
    (div_eq_div_iff (ne_of_gt hAw) (ne_of_gt hBw)).mp
      (hminA.1.trans hminB.1.symm)
  have E2 : min A.width A.height * B.height = min B.width B.height * A.height :=
    (div_eq_div_iff (ne_of_gt hAh) (ne_of_gt hBh)).mp
      (hminA.2.trans hminB.2.symm)
  refine ⟨_, _, hP, hE, rfl, rfl, ?_, ?_, ?_⟩ <;>
    simp only [rectFractions, Prod.mk.injEq] <;>
    refine ⟨?_, ?_, ?_, ?_⟩ <;>
    rw [div_eq_div_iff (by positivity) (by positivity)]
  · linear_combination model.content.padding * E1
  · linear_combination model.content.padding * E2
  · linear_combination (-2 * model.content.padding) * E1
  · linear_combination (-2 * model.content.padding) * E2
  · linear_combination (-(img.naturalWidth * img.scale) / 2) * E1
  · linear_combination (-(img.naturalHeight * img.scale) / 2) * E2
  · linear_combination (img.naturalWidth * img.scale) * E1
  · linear_combination (img.naturalHeight * img.scale) * E2
  · linear_combination
      (-(img.naturalWidth * img.scale) / 2 - img.effects.inset.size) * E1
  · linear_combination
      (-(img.naturalHeight * img.scale) / 2 - img.effects.inset.size) * E2
  · linear_combination
      (img.naturalWidth * img.scale + 2 * img.effects.inset.size) * E1
  · linear_combination
      (img.naturalHeight * img.scale + 2 * img.effects.inset.size) * E2

/-- Witness for C1: a 1:1 model with a 2000×1000 image, previewed in a
540×540 canvas and exported at 1080×1080. -/
theorem C1_preview_export_parity_witness :
    ∃ P E : CanvasBoxes,
      projectorBoxes
        ⟨"1:1", ⟨1, 1⟩, ⟨"gradient", "", "bg", ⟨1/10⟩⟩,
          ⟨2/5, some ⟨2000, 1000, (1/2, 1/2), 19/100,
            ⟨⟨3/40, 9/40, 3/8, "rgba(0,0,0,0.35)"⟩, 2/25, ⟨0, "#FFFFFF"⟩⟩⟩⟩⟩
        ⟨540, 540⟩ = some P ∧
      exporterBoxes
        ⟨"1:1", ⟨1, 1⟩, ⟨"gradient", "", "bg", ⟨1/10⟩⟩,
          ⟨2/5, some ⟨2000, 1000, (1/2, 1/2), 19/100,
            ⟨⟨3/40, 9/40, 3/8, "rgba(0,0,0,0.35)"⟩, 2/25, ⟨0, "#FFFFFF"⟩⟩⟩⟩⟩
        1080 1080 = some E ∧
      P.canvasWidth = 540 ∧ P.canvasHeight = 540 ∧
      rectFractions P.paddingBox P.canvasWidth P.canvasHeight =
        rectFractions E.paddingBox E.canvasWidth E.canvasHeight ∧
      rectFractions P.imageBox P.canvasWidth P.canvasHeight =
        rectFractions E.imageBox E.canvasWidth E.canvasHeight ∧
      rectFractions P.insetBox P.canvasWidth P.canvasHeight =
        rectFractions E.insetBox E.canvasWidth E.canvasHeight :=
  C1_preview_export_parity
    ⟨"1:1", ⟨1, 1⟩, ⟨"gradient", "", "bg", ⟨1/10⟩⟩,
      ⟨2/5, some ⟨2000, 1000, (1/2, 1/2), 19/100,
        ⟨⟨3/40, 9/40, 3/8, "rgba(0,0,0,0.35)"⟩, 2/25, ⟨0, "#FFFFFF"⟩⟩⟩⟩⟩
    ⟨540, 540⟩ ⟨1080, 1080⟩
    ⟨2000, 1000, (1/2, 1/2), 19/100,
      ⟨⟨3/40, 9/40, 3/8, "rgba(0,0,0,0.35)"⟩, 2/25, ⟨0, "#FFFFFF"⟩⟩⟩
    rfl (by norm_num) (by norm_num) (by norm_num) (by norm_num)
    (by norm_num) (by norm_num) (by norm_num) (by norm_num)

/-! ## The §8 example scenario -/

/-- The settings of the spec's example scenario: aspect ratio "1:1",
padding 40 (legacy units), inset 0. -/
def exampleScenarioSettings : ScreenshotSettings :=
  { defaultSettings with padding := 40, inset := 0, aspectRatio := "1:1" }

/-- The model the builder produces for the example scenario with a
2000×1000 image in a 1080×1080 container. -/
def exampleScenarioModel : VirtualCanvas :=
  createCanvasModel exampleScenarioSettings backgroundPresets (some ⟨2000, 1000⟩)
    aspectRatioOptions ⟨1080, 1080⟩

/-- Full evaluation of the example-scenario model. -/
lemma exampleScenarioModel_eval : exampleScenarioModel =
    ⟨"1:1", ⟨1, 1⟩,
      ⟨"gradient", "", "bg-gradient-to-br from-blue-500 to-purple-600", ⟨1/10⟩⟩,
      ⟨2/5, some ⟨2000, 1000, (1/2, 1/2), 19/100,
        ⟨⟨3/40, 9/40, 3/8, "rgba(0,0,0,0.35)"⟩, 2/25, ⟨0, "#FFFFFF"⟩⟩⟩⟩⟩ := by
  simp [exampleScenarioModel, exampleScenarioSettings, createCanvasModel,
    defaultSettings, aspectRatioOptions, backgroundPresets, List.find?]
  norm_num [min_def]

/-- C2: in the example scenario the normalized padding is exactly 0.4
(clamped) and the scale comes from the width-binding branch as
`availableWidth × 0.95` — but the export at 1080×1080 computes an image box
of width 410400 px (`naturalWidth × scale × minDimension`, with `scale`
already a fraction of the canvas), not the ≈205.2 px
(`(1-0.8) × 1080 × 0.95`) that the scenario expects: the drawn image is 380
times wider than the canvas instead of fitting inside the padding. -/
theorem C2_example_scenario :
    exampleScenarioModel.content.padding = 0.4 ∧
    (∀ img ∈ exampleScenarioModel.content.image,
      img.scale = (1 - 0.4 * 2 - 0 * 2) * 0.95) ∧
    ∀ layout ∈ renderToCanvasLayout exampleScenarioModel 1080 1080,
      layout.scaledWidth = 410400 ∧ layout.scaledHeight = 205200 ∧
      layout.scaledWidth ≠ (1 - 0.4 * 2) * 1080 * 0.95 ∧
      ¬(layout.scaledWidth ≤ 1080) := by
  rw [exampleScenarioModel_eval]
  refine ⟨by norm_num, ?_, ?_⟩
  · intro img hmem
    simp only [Option.mem_def, Option.some.injEq] at hmem
    subst hmem
    norm_num
  · intro layout hmem
    simp only [renderToCanvasLayout, Option.map_some', Option.mem_def,
      Option.some.injEq] at hmem
    subst hmem
    norm_num [min_def]

end Screenshoot
